import Mathlib

/-!
# PyGraphicsT: the `pygraphicst._wcwidth` extension module

A shallow embedding of `src/pygraphicst/wcwidth.c`.  The file holds two
functions of its own, `wcwidth_wcwidth` and `PyInit__wcwidth`; everything else
they touch belongs to CPython (`PyArg_ParseTuple`, `PyLong_FromLong`,
`PyModule_Create`) or to the C library (`wcwidth`, `setlocale`).

* The C library is a parameter (`Host`): its width tables and its locale
  database differ between platforms, and the module adds nothing to them.
  What `wcwidth` keeps in every locale (the width of the null wide character,
  of the control characters, and the set of values it takes) is recorded in
  `PosixHost`.
* The CPython calls are modelled after the C-API reference and `getargs.c`;
  running out of memory inside them is not modelled.
* The process state that the two functions read or write is explicit
  (`World`): the locale in effect for `LC_CTYPE`, and the sequence of library
  calls made so far.
-/

namespace PyGraphicsT

/-! ## Python values -/

/-- The Python exceptions the argument parser can set. -/
inductive PyExc
  | TypeError
  | ValueError
deriving DecidableEq

/-- One entry of a `PyMethodDef` table; `ml_meth` is the name of the C function
it points at. -/
structure PyMethodDef where
  ml_name : String
  ml_meth : String
  ml_flags : String
  ml_doc : String
deriving DecidableEq

/-- The fields of `struct PyModuleDef` that `wcwidth.c` fills in. -/
structure PyModuleDef where
  m_name : String
  m_doc : Option String
  m_size : Int
  m_methods : List PyMethodDef
deriving DecidableEq

/-- The Python objects that matter here.  A `str` is a sequence of code
points, each below `0x110000`; as in CPython a lone surrogate is a legal
element. -/
inductive PyObject
  | none
  | long (v : Int)
  | bytes (b : List Nat)
  | unicode (s : List (Fin 0x110000))
  | module (d : PyModuleDef)
deriving DecidableEq

/-- What a C function of type `PyObject *(*)(...)` hands back: a live object,
`NULL` with an exception set, or no defined behaviour at all (a read outside
the buffer it was given). -/
inductive Ret
  | obj (o : PyObject)
  | null (e : PyExc)
  | undefined
deriving DecidableEq

/-! ## The C library and the process state -/

/-- The locale categories of `<locale.h>`. -/
inductive Category
  | LC_CTYPE
  | LC_NUMERIC
  | LC_TIME
  | LC_COLLATE
  | LC_MONETARY
  | LC_MESSAGES
  | LC_ALL
deriving DecidableEq

/-- The library calls whose order or absence the module is answerable for. -/
inductive Event
  | wcwidth (wc : Nat)
  | setlocale (category : Category) (name : String)
  | PyModule_Create (name : String)
deriving DecidableEq

/-- The platform the module is compiled for and runs on.

* `wchar16`: `Py_UNICODE` (that is, `wchar_t`) is 16 bits wide rather than 32.
* `wcwidth loc wc`: the value of libc `wcwidth(wc)` while `loc` is the locale
  in effect for `LC_CTYPE`.
* `setlocale category name loc`: the `LC_CTYPE` locale after
  `setlocale(category, name)` was called while it was `loc`; `none` when the
  request cannot be honoured (the call returns `NULL` and changes nothing).
  The name `""` asks for the locale named by the environment. -/
structure Host where
  wchar16 : Bool
  wcwidth : String → Nat → Int
  setlocale : Category → String → String → Option String

/-- The process state: the `LC_CTYPE` locale, and the library calls so far. -/
structure World where
  locale : String
  trace : List Event
deriving DecidableEq

/-! ## CPython -/

/-- The macro `Py_UNICODE_HIGH_SURROGATE(ch)` of `unicodeobject.h`. -/
def Py_UNICODE_HIGH_SURROGATE (ch : Nat) : Nat :=
  0xD800 - (0x10000 >>> 10) + (ch >>> 10)

/-- The macro `Py_UNICODE_LOW_SURROGATE(ch)` of `unicodeobject.h`. -/
def Py_UNICODE_LOW_SURROGATE (ch : Nat) : Nat :=
  0xDC00 + (ch &&& 0x3FF)

/-- The `Py_UNICODE` units of one code point: the code point itself, or a
surrogate pair when `wchar_t` has 16 bits and the code point lies outside the
BMP. -/
def unitsOf (wchar16 : Bool) (ch : Nat) : List Nat :=
  if wchar16 && decide (0xFFFF < ch) then
    [Py_UNICODE_HIGH_SURROGATE ch, Py_UNICODE_LOW_SURROGATE ch]
  else
    [ch]

/-- The call `PyUnicode_AsUnicodeAndSize`: the `Py_UNICODE` buffer of a `str` (with its
terminating `0`) and the number of units before the terminator. -/
def PyUnicode_AsUnicodeAndSize (wchar16 : Bool) (s : List (Fin 0x110000)) :
    List Nat × Nat :=
  let units := s.flatMap (fun ch => unitsOf wchar16 ch.val)
  (units ++ [0], units.length)

/-- The length the parser measures on the buffer (`wcslen`, in CPython
`Py_UNICODE_strlen`): the number of units before the first `0`. -/
def wcslen : List Nat → Nat
  | [] => 0
  | u :: us => if u = 0 then 0 else wcslen us + 1

/-- The call `PyArg_ParseTuple(args, "u", &command)`: it succeeds when `args` holds exactly
one object, a `str` without an embedded null; `command` then points at its
NUL-terminated `Py_UNICODE` buffer.  A wrong number of arguments or an
argument that is not a `str` is a `TypeError`, an embedded null a
`ValueError`. -/
def PyArg_ParseTuple_u (wchar16 : Bool) (args : List PyObject) :
    Except PyExc (List Nat) :=
  match args with
  | [PyObject.unicode s] =>
    let (p, len) := PyUnicode_AsUnicodeAndSize wchar16 s
    if wcslen p ≠ len then Except.error PyExc.ValueError else Except.ok p
  | _ => Except.error PyExc.TypeError

/-- The call `PyLong_FromLong`: the Python `int` of that value. -/
def PyLong_FromLong (v : Int) : PyObject :=
  PyObject.long v

/-- The call `PyModule_Create`: the module object made from a definition. -/
def PyModule_Create (d : PyModuleDef) : PyObject :=
  PyObject.module d

/-! ## `wcwidth.c` -/

/-- The function `wcwidth_wcwidth`, lines 5-13 of `wcwidth.c`. -/
def wcwidth_wcwidth (h : Host) (w : World) (args : List PyObject) : Ret × World :=
  match PyArg_ParseTuple_u h.wchar16 args with
  | Except.error e => (Ret.null e, w)
  | Except.ok command =>
    match command[0]? with
    | Option.none => (Ret.undefined, w)
    | some c =>
      (Ret.obj (PyLong_FromLong (h.wcwidth w.locale c)),
        { w with trace := w.trace ++ [Event.wcwidth c] })

/-- The method table, lines 15-18. -/
def wcwidth_methods : List PyMethodDef :=
  [{ ml_name := "wcwidth", ml_meth := "wcwidth_wcwidth", ml_flags := "METH_VARARGS",
     ml_doc := "Get width of a wchar." }]

/-- The module definition, lines 20-26. -/
def wcwidth_module : PyModuleDef :=
  { m_name := "pygraphicst._wcwidth", m_doc := Option.none, m_size := -1,
    m_methods := wcwidth_methods }

/-- The function `PyInit__wcwidth`, lines 28-32.  The value `setlocale` returns
is dropped. -/
def PyInit__wcwidth (h : Host) (w : World) : Ret × World :=
  let w1 : World :=
    { locale := (h.setlocale Category.LC_ALL "" w.locale).getD w.locale,
      trace := w.trace ++ [Event.setlocale Category.LC_ALL ""] }
  (Ret.obj (PyModule_Create wcwidth_module),
    { w1 with trace := w1.trace ++ [Event.PyModule_Create wcwidth_module.m_name] })

/-! ## A sample platform

The concrete evaluations further down need one platform to run on.  This one
has a 32-bit `wchar_t` (`sampleHost`) or a 16-bit one (`sampleHost16`), knows
the locales `C`, `POSIX` and `en_US.UTF-8`, and takes the locale named by the
environment as an argument. -/

/-- A `wcwidth` that meets POSIX (`0` for the null wide character, `-1` for
what the locale cannot print): in `C` and `POSIX` nothing outside ASCII is
printable, as with glibc; elsewhere a surrogate is not printable and the
widths of the ranges listed are those of Markus Kuhn's reference `wcwidth`. -/
def sampleWcwidth (loc : String) (wc : Nat) : Int :=
  if wc = 0 then 0
  else if wc < 0x20 ∨ (0x7F ≤ wc ∧ wc < 0xA0) then -1
  else if wc < 0x7F then 1
  else if loc = "C" ∨ loc = "POSIX" then -1
  else if 0xD800 ≤ wc ∧ wc ≤ 0xDFFF then -1
  else if 0x0300 ≤ wc ∧ wc ≤ 0x036F then 0
  else if (0x1100 ≤ wc ∧ wc ≤ 0x115F) ∨ (0x2E80 ≤ wc ∧ wc ≤ 0xA4CF ∧ wc ≠ 0x303F) ∨
      (0xAC00 ≤ wc ∧ wc ≤ 0xD7A3) ∨ (0xF900 ≤ wc ∧ wc ≤ 0xFAFF) ∨
      (0xFE30 ≤ wc ∧ wc ≤ 0xFE6F) ∨ (0xFF00 ≤ wc ∧ wc ≤ 0xFF60) ∨
      (0xFFE0 ≤ wc ∧ wc ≤ 0xFFE6) ∨ (0x20000 ≤ wc ∧ wc ≤ 0x3FFFD) then 2
  else 1

/-- A `setlocale` over three installed locales; `env` is the locale the
environment names.  Only `LC_ALL` and `LC_CTYPE` requests move the `LC_CTYPE`
locale. -/
def sampleSetlocale (env : String) (category : Category) (name : String)
    (loc : String) : Option String :=
  let target := if name = "" then env else name
  if target = "C" ∨ target = "POSIX" ∨ target = "en_US.UTF-8" then
    if category = Category.LC_ALL ∨ category = Category.LC_CTYPE then some target
    else some loc
  else Option.none

/-- The sample platform with a 32-bit `wchar_t`. -/
def sampleHost (env : String) : Host :=
  { wchar16 := false, wcwidth := sampleWcwidth, setlocale := sampleSetlocale env }

/-- The sample platform with a 16-bit `wchar_t`. -/
def sampleHost16 (env : String) : Host :=
  { wchar16 := true, wcwidth := sampleWcwidth, setlocale := sampleSetlocale env }

/-- A process at start-up: the `C` locale, no library call made yet. -/
def startWorld : World :=
  { locale := "C", trace := [] }

/-! ## Facts about the argument parser -/

theorem wcslen_append_nul (us : List Nat) (hus : ∀ u ∈ us, u ≠ 0) :
    wcslen (us ++ [0]) = us.length := by
  induction us with
  | nil => simp [wcslen]
  | cons u us ih =>
    have hu : u ≠ 0 := hus u (List.mem_cons_self u us)
    have ih2 := ih (fun x hx => hus x (List.mem_cons_of_mem u hx))
    simp [wcslen, hu, ih2]

theorem unitsOf_ne_zero (b : Bool) (ch : Nat) (hch : ch ≠ 0) :
    ∀ u ∈ unitsOf b ch, u ≠ 0 := by
  intro u hu
  unfold unitsOf at hu
  split at hu
  · simp only [List.mem_cons, List.mem_singleton, List.not_mem_nil, or_false] at hu
    rcases hu with hu | hu
    · subst hu
      show 0xD800 - (0x10000 >>> 10) + (ch >>> 10) ≠ 0
      have : 0xD800 - (0x10000 >>> 10) = 55232 := by decide
      omega
    · subst hu
      show 0xDC00 + (ch &&& 0x3FF) ≠ 0
      omega
  · simp only [List.mem_singleton] at hu
    omega

theorem units_ne_zero (b : Bool) (s : List (Fin 0x110000)) (hs : ∀ ch ∈ s, ch.val ≠ 0) :
    ∀ u ∈ s.flatMap (fun ch => unitsOf b ch.val), u ≠ 0 := by
  intro u hu
  rw [List.mem_flatMap] at hu
  obtain ⟨ch, hch, hmem⟩ := hu
  exact unitsOf_ne_zero b ch.val (hs ch hch) u hmem

theorem wcslen_lt_of_mem (us tail : List Nat) (hmem : 0 ∈ us) :
    wcslen (us ++ tail) < us.length := by
  induction us with
  | nil => cases hmem
  | cons u us ih =>
    by_cases hu : u = 0
    · simp [wcslen, hu]
    · have hin : 0 ∈ us := by
        rcases List.mem_cons.mp hmem with h0 | h0
        · exact absurd h0.symm hu
        · exact h0
      have ih2 := ih hin
      have hstep : wcslen (u :: us ++ tail) = wcslen (us ++ tail) + 1 := by
        show wcslen (u :: (us ++ tail)) = wcslen (us ++ tail) + 1
        simp [wcslen, hu]
      rw [hstep, List.length_cons]
      omega

/-- A string that holds a null code point is rejected with `ValueError`. -/
theorem parse_unicode_embedded_nul (b : Bool) (s : List (Fin 0x110000))
    (hs : ∃ ch ∈ s, ch.val = 0) :
    PyArg_ParseTuple_u b [PyObject.unicode s] = Except.error PyExc.ValueError := by
  obtain ⟨ch, hch, hz⟩ := hs
  have hmem : 0 ∈ s.flatMap (fun ch => unitsOf b ch.val) := by
    rw [List.mem_flatMap]
    refine ⟨ch, hch, ?_⟩
    simp [unitsOf, hz]
  have hlt := wcslen_lt_of_mem _ [0] hmem
  have hne : wcslen (s.flatMap (fun ch => unitsOf b ch.val) ++ [0]) ≠
      (s.flatMap (fun ch => unitsOf b ch.val)).length := by omega
  simp only [PyArg_ParseTuple_u, PyUnicode_AsUnicodeAndSize]
  rw [if_pos hne]

/-- A successful parse came from a one-element tuple holding a `str`, the
buffer is that string's units followed by the terminator, and no unit before
the terminator is null. -/
theorem parse_ok_inv (b : Bool) (args : List PyObject) (p : List Nat)
    (hp : PyArg_ParseTuple_u b args = Except.ok p) :
    ∃ s, args = [PyObject.unicode s] ∧
      p = s.flatMap (fun ch => unitsOf b ch.val) ++ [0] ∧
      wcslen p = (s.flatMap (fun ch => unitsOf b ch.val)).length := by
  unfold PyArg_ParseTuple_u at hp
  split at hp
  · rename_i s
    refine ⟨s, rfl, ?_⟩
    simp only [PyUnicode_AsUnicodeAndSize] at hp
    split at hp
    · cases hp
    · rename_i hlen
      cases hp
      exact ⟨rfl, not_not.mp hlen⟩
  · cases hp

/-- A string without a null code point parses. -/
theorem parse_unicode_ok (b : Bool) (s : List (Fin 0x110000))
    (hs : ∀ ch ∈ s, ch.val ≠ 0) :
    PyArg_ParseTuple_u b [PyObject.unicode s] =
      Except.ok (s.flatMap (fun ch => unitsOf b ch.val) ++ [0]) := by
  have hlen := wcslen_append_nul _ (units_ne_zero b s hs)
  simp [PyArg_ParseTuple_u, PyUnicode_AsUnicodeAndSize, hlen]

/-- The parsed buffer is never empty: index 0 exists. -/
theorem parse_ok_head (b : Bool) (args : List PyObject) (p : List Nat)
    (hp : PyArg_ParseTuple_u b args = Except.ok p) :
    ∃ c, p[0]? = some c := by
  obtain ⟨s, -, rfl, -⟩ := parse_ok_inv b args p hp
  cases hu : s.flatMap (fun ch => unitsOf b ch.val) with
  | nil => exact ⟨0, by simp⟩
  | cons u us => exact ⟨u, by simp⟩

/-- What the function does once the parse has succeeded. -/
theorem wcwidth_wcwidth_of_parse (h : Host) (w : World) (args : List PyObject)
    (p : List Nat) (c : Nat)
    (hp : PyArg_ParseTuple_u h.wchar16 args = Except.ok p) (hc : p[0]? = some c) :
    wcwidth_wcwidth h w args =
      (Ret.obj (PyObject.long (h.wcwidth w.locale c)),
        { w with trace := w.trace ++ [Event.wcwidth c] }) := by
  simp only [wcwidth_wcwidth, hp, hc, PyLong_FromLong]

/-- The first unit of the buffer of a non-empty string. -/
theorem units_cons_head (b : Bool) (c : Fin 0x110000) (rest : List (Fin 0x110000)) :
    ((c :: rest).flatMap (fun ch => unitsOf b ch.val) ++ [0])[0]? =
      some (if b && decide (0xFFFF < c.val) then Py_UNICODE_HIGH_SURROGATE c.val
        else c.val) := by
  simp only [List.flatMap_cons, unitsOf]
  split <;> simp

/-- A string that starts with a non-null code point, holds no null code point
and whose first code point is one unit long: the call returns the library's
width of that code point. -/
theorem wcwidth_wcwidth_cons (h : Host) (w : World) (c : Fin 0x110000)
    (rest : List (Fin 0x110000)) (hc : c.val ≠ 0) (hrest : ∀ ch ∈ rest, ch.val ≠ 0)
    (hunit : h.wchar16 = false ∨ c.val ≤ 0xFFFF) :
    wcwidth_wcwidth h w [PyObject.unicode (c :: rest)] =
      (Ret.obj (PyObject.long (h.wcwidth w.locale c.val)),
        { w with trace := w.trace ++ [Event.wcwidth c.val] }) := by
  have hs : ∀ ch ∈ c :: rest, ch.val ≠ 0 := by
    intro ch hch
    rcases List.mem_cons.mp hch with rfl | hmem
    · exact hc
    · exact hrest ch hmem
  have hp := parse_unicode_ok h.wchar16 (c :: rest) hs
  have hhead := units_cons_head h.wchar16 c rest
  have hsel : (if h.wchar16 && decide (0xFFFF < c.val) then
      Py_UNICODE_HIGH_SURROGATE c.val else c.val) = c.val := by
    rcases hunit with h16 | hle
    · simp [h16]
    · have : ¬ (0xFFFF < c.val) := by omega
      simp [this]
  rw [hsel] at hhead
  exact wcwidth_wcwidth_of_parse h w _ _ c.val hp hhead

/-- Only the empty string hands the terminator over as unit 0. -/
theorem parse_ok_head_nul (b : Bool) (args : List PyObject) (p : List Nat)
    (hp : PyArg_ParseTuple_u b args = Except.ok p) (h0 : p[0]? = some 0) :
    args = [PyObject.unicode []] := by
  obtain ⟨s, hargs, -, hlen⟩ := parse_ok_inv b args p hp
  cases s with
  | nil => exact hargs
  | cons c rest =>
    exfalso
    have hpos : 0 < ((c :: rest).flatMap (fun ch => unitsOf b ch.val)).length := by
      simp only [List.flatMap_cons, List.length_append, unitsOf]
      split <;> simp
    have hz : wcslen p = 0 := by
      cases p with
      | nil => rfl
      | cons u us =>
        simp only [List.getElem?_cons_zero, Option.some.injEq] at h0
        simp [wcslen, h0]
    omega

/-! ## The width call forwards to the C library -/

/-- C1: whenever the argument tuple parses, it holds a single string `s`, the
buffer is the units of `s` and the terminator, and `wcwidth_wcwidth` returns
the Python integer whose value is libc `wcwidth` of unit 0 of that buffer,
exactly as the library gave it; it does nothing besides that one library
call. -/
theorem wcwidth_wcwidth_is_libc_wcwidth (h : Host) (w : World) (args : List PyObject)
    (command : List Nat)
    (hparse : PyArg_ParseTuple_u h.wchar16 args = Except.ok command) :
    ∃ s c, args = [PyObject.unicode s] ∧
      command = s.flatMap (fun ch => unitsOf h.wchar16 ch.val) ++ [0] ∧
      command[0]? = some c ∧
      wcwidth_wcwidth h w args =
        (Ret.obj (PyLong_FromLong (h.wcwidth w.locale c)),
          { w with trace := w.trace ++ [Event.wcwidth c] }) := by
  obtain ⟨s, hargs, hbuf, -⟩ := parse_ok_inv h.wchar16 args command hparse
  obtain ⟨c, hc⟩ := parse_ok_head h.wchar16 args command hparse
  exact ⟨s, c, hargs, hbuf, hc, wcwidth_wcwidth_of_parse h w args command c hparse hc⟩

/-- C1 at the string `"中A"` in a UTF-8 locale. -/
theorem wcwidth_wcwidth_is_libc_wcwidth_witness :
    PyArg_ParseTuple_u (sampleHost "en_US.UTF-8").wchar16
        [PyObject.unicode [0x4E2D, 0x41]] = Except.ok [0x4E2D, 0x41, 0] ∧
      ∃ s c, [PyObject.unicode [0x4E2D, 0x41]] = [PyObject.unicode s] ∧
        [0x4E2D, 0x41, 0] =
          s.flatMap (fun ch => unitsOf (sampleHost "en_US.UTF-8").wchar16 ch.val) ++ [0] ∧
        [0x4E2D, 0x41, 0][0]? = some c ∧
        wcwidth_wcwidth (sampleHost "en_US.UTF-8") ⟨"en_US.UTF-8", []⟩
            [PyObject.unicode [0x4E2D, 0x41]] =
          (Ret.obj (PyLong_FromLong ((sampleHost "en_US.UTF-8").wcwidth "en_US.UTF-8" c)),
            { (⟨"en_US.UTF-8", []⟩ : World) with trace := [] ++ [Event.wcwidth c] }) :=
  ⟨rfl,
    wcwidth_wcwidth_is_libc_wcwidth (sampleHost "en_US.UTF-8") ⟨"en_US.UTF-8", []⟩
      [PyObject.unicode [0x4E2D, 0x41]] [0x4E2D, 0x41, 0] rfl⟩

/-- C2: two argument tuples that both parse and whose buffers start with the
same code unit get the same answer from the same state, whatever follows the
first unit; and a first unit that is a surrogate half is handed to the
library like any other unit. -/
theorem wcwidth_wcwidth_first_unit_only (h : Host) (w : World)
    (args1 args2 : List PyObject) (p1 p2 : List Nat)
    (h1 : PyArg_ParseTuple_u h.wchar16 args1 = Except.ok p1)
    (h2 : PyArg_ParseTuple_u h.wchar16 args2 = Except.ok p2)
    (hfirst : p1[0]? = p2[0]?) :
    wcwidth_wcwidth h w args1 = wcwidth_wcwidth h w args2 ∧
      ∀ c, p1[0]? = some c → 0xD800 ≤ c → c ≤ 0xDFFF →
        (wcwidth_wcwidth h w args1).1 = Ret.obj (PyObject.long (h.wcwidth w.locale c)) := by
  obtain ⟨c1, hc1⟩ := parse_ok_head h.wchar16 args1 p1 h1
  have hc2 : p2[0]? = some c1 := by rw [← hfirst]; exact hc1
  refine ⟨?_, ?_⟩
  · rw [wcwidth_wcwidth_of_parse h w args1 p1 c1 h1 hc1,
      wcwidth_wcwidth_of_parse h w args2 p2 c1 h2 hc2]
  · intro c hc _ _
    rw [wcwidth_wcwidth_of_parse h w args1 p1 c h1 hc]

/-- C2 where `wchar_t` has 16 bits: the lone half `U+D83D` and the string
`"😀A"`, whose buffer starts with the same half. -/
theorem wcwidth_wcwidth_first_unit_only_witness :
    PyArg_ParseTuple_u (sampleHost16 "en_US.UTF-8").wchar16
        [PyObject.unicode [0xD83D]] = Except.ok [0xD83D, 0] ∧
      PyArg_ParseTuple_u (sampleHost16 "en_US.UTF-8").wchar16
        [PyObject.unicode [0x1F600, 0x41]] = Except.ok [0xD83D, 0xDE00, 0x41, 0] ∧
      (wcwidth_wcwidth (sampleHost16 "en_US.UTF-8") ⟨"en_US.UTF-8", []⟩
          [PyObject.unicode [0xD83D]] =
        wcwidth_wcwidth (sampleHost16 "en_US.UTF-8") ⟨"en_US.UTF-8", []⟩
          [PyObject.unicode [0x1F600, 0x41]] ∧
        ∀ c, [0xD83D, 0][0]? = some c → 0xD800 ≤ c → c ≤ 0xDFFF →
          (wcwidth_wcwidth (sampleHost16 "en_US.UTF-8") ⟨"en_US.UTF-8", []⟩
              [PyObject.unicode [0xD83D]]).1 =
            Ret.obj (PyObject.long ((sampleHost16 "en_US.UTF-8").wcwidth "en_US.UTF-8" c))) :=
  ⟨rfl, rfl,
    wcwidth_wcwidth_first_unit_only (sampleHost16 "en_US.UTF-8") ⟨"en_US.UTF-8", []⟩
      [PyObject.unicode [0xD83D]] [PyObject.unicode [0x1F600, 0x41]]
      [0xD83D, 0] [0xD83D, 0xDE00, 0x41, 0] rfl rfl rfl⟩

/-! ## No validation of the code unit -/

/-- C3, as stated, fails: after the module was loaded in a UTF-8 environment,
the string holding the lone surrogate `U+D800` is answered with the Python
integer `-1` (the library's width of that unit) and one `wcwidth` call; no
exception is set. -/
theorem surrogate_is_classified :
    wcwidth_wcwidth (sampleHost "en_US.UTF-8")
        (PyInit__wcwidth (sampleHost "en_US.UTF-8") startWorld).2
        [PyObject.unicode [0xD800]] =
      (Ret.obj (PyObject.long (-1)),
        ⟨"en_US.UTF-8", [Event.setlocale Category.LC_ALL "",
          Event.PyModule_Create "pygraphicst._wcwidth", Event.wcwidth 0xD800]⟩) ∧
      ∀ e, (wcwidth_wcwidth (sampleHost "en_US.UTF-8")
        (PyInit__wcwidth (sampleHost "en_US.UTF-8") startWorld).2
        [PyObject.unicode [0xD800]]).1 ≠ Ret.null e := by
  refine ⟨by decide, ?_⟩
  intro e
  cases e <;> decide

/-- C3 amended: a string that starts with a surrogate `c` and holds no null
code point is answered with the Python integer `wcwidth(c)`, not with an
error; and whenever the function does return `NULL`, the exception is the one
the argument parser set. -/
theorem wcwidth_wcwidth_forwards_surrogate (h : Host) (w : World) (c : Fin 0x110000)
    (rest : List (Fin 0x110000)) (hlo : 0xD800 ≤ c.val) (hhi : c.val ≤ 0xDFFF)
    (hrest : ∀ ch ∈ rest, ch.val ≠ 0) :
    (wcwidth_wcwidth h w [PyObject.unicode (c :: rest)]).1 =
        Ret.obj (PyObject.long (h.wcwidth w.locale c.val)) ∧
      ∀ args e, (wcwidth_wcwidth h w args).1 = Ret.null e →
        PyArg_ParseTuple_u h.wchar16 args = Except.error e := by
  refine ⟨?_, ?_⟩
  · rw [wcwidth_wcwidth_cons h w c rest (by omega) hrest (Or.inr (by omega))]
  · intro args e he
    cases hp : PyArg_ParseTuple_u h.wchar16 args with
    | error e2 =>
      simp only [wcwidth_wcwidth, hp] at he
      cases he
      rfl
    | ok p =>
      obtain ⟨c2, hc2⟩ := parse_ok_head h.wchar16 args p hp
      rw [wcwidth_wcwidth_of_parse h w args p c2 hp hc2] at he
      cases he

/-- C3 amended, at the low surrogate `U+DC00` followed by `"A"`. -/
theorem wcwidth_wcwidth_forwards_surrogate_witness :
    (wcwidth_wcwidth (sampleHost "C") startWorld [PyObject.unicode [0xDC00, 0x41]]).1 =
        Ret.obj (PyObject.long ((sampleHost "C").wcwidth startWorld.locale
          (0xDC00 : Fin 0x110000).val)) ∧
      ∀ args e, (wcwidth_wcwidth (sampleHost "C") startWorld args).1 = Ret.null e →
        PyArg_ParseTuple_u (sampleHost "C").wchar16 args = Except.error e :=
  wcwidth_wcwidth_forwards_surrogate (sampleHost "C") startWorld 0xDC00 [0x41]
    (by decide) (by decide) (by simp; decide)

/-! ## The null character -/

/-- C6, as stated, fails: in one process, with the module loaded in a UTF-8
environment, the call on `"中"` returns `2`; after the process locale was set
to `C` the same call on the same string returns `-1`. -/
theorem result_changes_with_locale :
    (wcwidth_wcwidth (sampleHost "en_US.UTF-8")
        (PyInit__wcwidth (sampleHost "en_US.UTF-8") startWorld).2
        [PyObject.unicode [0x4E2D]]).1 = Ret.obj (PyObject.long 2) ∧
      (sampleHost "en_US.UTF-8").setlocale Category.LC_ALL "C" "en_US.UTF-8" = some "C" ∧
      (wcwidth_wcwidth (sampleHost "en_US.UTF-8")
        { (wcwidth_wcwidth (sampleHost "en_US.UTF-8")
            (PyInit__wcwidth (sampleHost "en_US.UTF-8") startWorld).2
            [PyObject.unicode [0x4E2D]]).2 with locale := "C" }
        [PyObject.unicode [0x4E2D]]).1 = Ret.obj (PyObject.long (-1)) := by
  decide

/-- C6 amended: the answer is a function of the argument and of the process
locale together.  From two states with the same locale the same argument gets
the same answer; the call leaves the locale as it found it, so that calling
again right away repeats the answer. -/
theorem wcwidth_wcwidth_deterministic_per_locale (h : Host) (w1 w2 : World)
    (args : List PyObject) (hloc : w1.locale = w2.locale) :
    (wcwidth_wcwidth h w1 args).1 = (wcwidth_wcwidth h w2 args).1 ∧
      (wcwidth_wcwidth h w1 args).2.locale = w1.locale ∧
      (wcwidth_wcwidth h (wcwidth_wcwidth h w1 args).2 args).1 =
        (wcwidth_wcwidth h w1 args).1 := by
  have key : ∀ (a b : World), a.locale = b.locale →
      (wcwidth_wcwidth h a args).1 = (wcwidth_wcwidth h b args).1 := by
    intro a b hab
    cases hp : PyArg_ParseTuple_u h.wchar16 args with
    | error e => simp only [wcwidth_wcwidth, hp]
    | ok p =>
      obtain ⟨c, hc⟩ := parse_ok_head h.wchar16 args p hp
      rw [wcwidth_wcwidth_of_parse h a args p c hp hc,
        wcwidth_wcwidth_of_parse h b args p c hp hc, hab]
  have keep : (wcwidth_wcwidth h w1 args).2.locale = w1.locale := by
    cases hp : PyArg_ParseTuple_u h.wchar16 args with
    | error e => simp only [wcwidth_wcwidth, hp]
    | ok p =>
      obtain ⟨c, hc⟩ := parse_ok_head h.wchar16 args p hp
      rw [wcwidth_wcwidth_of_parse h w1 args p c hp hc]
  exact ⟨key w1 w2 hloc, keep, key _ _ keep⟩

/-- C6 amended, at `"中"`: before and after an unrelated library call was
logged, under the same locale. -/
theorem wcwidth_wcwidth_deterministic_per_locale_witness :
    (wcwidth_wcwidth (sampleHost "C") ⟨"en_US.UTF-8", []⟩ [PyObject.unicode [0x4E2D]]).1 =
        (wcwidth_wcwidth (sampleHost "C") ⟨"en_US.UTF-8", [Event.wcwidth 0x41]⟩
          [PyObject.unicode [0x4E2D]]).1 ∧
      (wcwidth_wcwidth (sampleHost "C") ⟨"en_US.UTF-8", []⟩
          [PyObject.unicode [0x4E2D]]).2.locale = "en_US.UTF-8" ∧
      (wcwidth_wcwidth (sampleHost "C")
          (wcwidth_wcwidth (sampleHost "C") ⟨"en_US.UTF-8", []⟩
            [PyObject.unicode [0x4E2D]]).2 [PyObject.unicode [0x4E2D]]).1 =
        (wcwidth_wcwidth (sampleHost "C") ⟨"en_US.UTF-8", []⟩
          [PyObject.unicode [0x4E2D]]).1 :=
  wcwidth_wcwidth_deterministic_per_locale (sampleHost "C") ⟨"en_US.UTF-8", []⟩
    ⟨"en_US.UTF-8", [Event.wcwidth 0x41]⟩ [PyObject.unicode [0x4E2D]] rfl

/-! ## Wide characters -/

/-- C7, as stated, fails: with the environment naming the `C` locale, the
module loads, and the calls on `"中"` (`U+4E2D`) and on fullwidth `"Ａ"`
(`U+FF21`) both return `-1`. -/
theorem wide_is_minus_one_in_C_locale :
    (wcwidth_wcwidth (sampleHost "C") (PyInit__wcwidth (sampleHost "C") startWorld).2
        [PyObject.unicode [0x4E2D]]).1 = Ret.obj (PyObject.long (-1)) ∧
      (wcwidth_wcwidth (sampleHost "C") (PyInit__wcwidth (sampleHost "C") startWorld).2
        [PyObject.unicode [0xFF21]]).1 = Ret.obj (PyObject.long (-1)) := by
  decide

/-- C7 amended: a string that starts with a code point `c` (not null, one
unit long, no null code point after it) is answered with `2` exactly when
the library gives `c` the width `2` in the current locale. -/
theorem wcwidth_wcwidth_wide (h : Host) (w : World) (c : Fin 0x110000)
    (rest : List (Fin 0x110000)) (hc : c.val ≠ 0) (hrest : ∀ ch ∈ rest, ch.val ≠ 0)
    (hunit : h.wchar16 = false ∨ c.val ≤ 0xFFFF) :
    (wcwidth_wcwidth h w [PyObject.unicode (c :: rest)]).1 = Ret.obj (PyObject.long 2) ↔
      h.wcwidth w.locale c.val = 2 := by
  rw [wcwidth_wcwidth_cons h w c rest hc hrest hunit]
  simp only [Ret.obj.injEq, PyObject.long.injEq]

/-- C7 amended, at `U+4E2D` and at `U+FF21` after the module was loaded in a
UTF-8 environment, and at `U+4E2D` in the `C` locale. -/
theorem wcwidth_wcwidth_wide_witness :
    (PyInit__wcwidth (sampleHost "en_US.UTF-8") startWorld).2.locale = "en_US.UTF-8" ∧
      (wcwidth_wcwidth (sampleHost "en_US.UTF-8")
          (PyInit__wcwidth (sampleHost "en_US.UTF-8") startWorld).2
          [PyObject.unicode [0x4E2D]]).1 = Ret.obj (PyObject.long 2) ∧
      (wcwidth_wcwidth (sampleHost "en_US.UTF-8")
          (PyInit__wcwidth (sampleHost "en_US.UTF-8") startWorld).2
          [PyObject.unicode [0xFF21, 0x42]]).1 = Ret.obj (PyObject.long 2) ∧
      (wcwidth_wcwidth (sampleHost "C") startWorld [PyObject.unicode [0x4E2D]]).1 ≠
        Ret.obj (PyObject.long 2) :=
  ⟨by decide,
    (wcwidth_wcwidth_wide (sampleHost "en_US.UTF-8")
      (PyInit__wcwidth (sampleHost "en_US.UTF-8") startWorld).2 0x4E2D []
      (by decide) (by simp) (Or.inl rfl)).mpr (by decide),
    (wcwidth_wcwidth_wide (sampleHost "en_US.UTF-8")
      (PyInit__wcwidth (sampleHost "en_US.UTF-8") startWorld).2 0xFF21 [0x42]
      (by decide) (by simp; decide) (Or.inl rfl)).mpr (by decide),
    fun hr => absurd ((wcwidth_wcwidth_wide (sampleHost "C") startWorld 0x4E2D []
      (by decide) (by simp) (Or.inl rfl)).mp hr) (by decide)⟩

/-! ## Module initialisation -/

/-- C8: from every state, `PyInit__wcwidth` calls `setlocale(LC_ALL, "")`
first and `PyModule_Create` second, and nothing else; the process locale
afterwards is the one `setlocale` installed, or the old one when `setlocale`
failed; and in both cases the module object is returned. -/
theorem PyInit__wcwidth_sets_locale_then_creates (h : Host) (w : World) :
    (PyInit__wcwidth h w).2.trace =
        w.trace ++ [Event.setlocale Category.LC_ALL "",
          Event.PyModule_Create "pygraphicst._wcwidth"] ∧
      (∀ loc, h.setlocale Category.LC_ALL "" w.locale = some loc →
        (PyInit__wcwidth h w).2.locale = loc) ∧
      (h.setlocale Category.LC_ALL "" w.locale = Option.none →
        (PyInit__wcwidth h w).2.locale = w.locale) ∧
      (PyInit__wcwidth h w).1 = Ret.obj (PyModule_Create wcwidth_module) := by
  refine ⟨?_, ?_, ?_, rfl⟩
  · simp [PyInit__wcwidth, wcwidth_module]
  · intro loc hloc
    simp [PyInit__wcwidth, hloc]
  · intro hfail
    simp [PyInit__wcwidth, hfail]

/-- C8 at start-up, once with an environment naming an installed locale and
once with one naming a locale that is not installed. -/
theorem PyInit__wcwidth_sets_locale_then_creates_witness :
    PyInit__wcwidth (sampleHost "en_US.UTF-8") startWorld =
        (Ret.obj (PyObject.module wcwidth_module),
          ⟨"en_US.UTF-8", [Event.setlocale Category.LC_ALL "",
            Event.PyModule_Create "pygraphicst._wcwidth"]⟩) ∧
      (sampleHost "xx_XX").setlocale Category.LC_ALL "" startWorld.locale = Option.none ∧
      (PyInit__wcwidth (sampleHost "xx_XX") startWorld).2.locale = startWorld.locale ∧
      (PyInit__wcwidth (sampleHost "xx_XX") startWorld).1 =
        Ret.obj (PyModule_Create wcwidth_module) :=
  ⟨by decide, by decide,
    (PyInit__wcwidth_sets_locale_then_creates (sampleHost "xx_XX") startWorld).2.2.1
      (by decide),
    (PyInit__wcwidth_sets_locale_then_creates (sampleHost "xx_XX") startWorld).2.2.2⟩

/-! ## Parse errors and the read of `command[0]` -/

/-- C9: when the parser fails, `wcwidth_wcwidth` returns `NULL` with the
parser's exception and leaves the state as it was (no `wcwidth` call, no
integer); a tuple that does not hold exactly one object, or whose one object
is not a `str`, fails so with `TypeError`; and when the parser succeeds the
result is a Python integer, never `NULL`. -/
theorem wcwidth_wcwidth_parse_error (h : Host) (w : World) (args : List PyObject) :
    (∀ e, PyArg_ParseTuple_u h.wchar16 args = Except.error e →
        wcwidth_wcwidth h w args = (Ret.null e, w)) ∧
      (args.length ≠ 1 ∨ (∃ o, args = [o] ∧ ∀ s, o ≠ PyObject.unicode s) →
        wcwidth_wcwidth h w args = (Ret.null PyExc.TypeError, w)) ∧
      (∀ p, PyArg_ParseTuple_u h.wchar16 args = Except.ok p →
        (∃ v, (wcwidth_wcwidth h w args).1 = Ret.obj (PyObject.long v)) ∧
          ∀ e, (wcwidth_wcwidth h w args).1 ≠ Ret.null e) := by
  refine ⟨?_, ?_, ?_⟩
  · intro e he
    simp only [wcwidth_wcwidth, he]
  · intro hbad
    have hp : PyArg_ParseTuple_u h.wchar16 args = Except.error PyExc.TypeError := by
      unfold PyArg_ParseTuple_u
      split
      · rename_i s
        rcases hbad with hlen | ⟨o, ho, hns⟩
        · simp at hlen
        · simp only [List.cons.injEq, and_true] at ho
          exact absurd ho.symm (hns s)
      · rfl
    simp only [wcwidth_wcwidth, hp]
  · intro p hp
    obtain ⟨c, hc⟩ := parse_ok_head h.wchar16 args p hp
    rw [wcwidth_wcwidth_of_parse h w args p c hp hc]
    exact ⟨⟨_, rfl⟩, fun e he => by cases he⟩

/-- C9 at an empty tuple, at a tuple of two strings, at a tuple holding an
`int`, and at a tuple holding `"A"`. -/
theorem wcwidth_wcwidth_parse_error_witness :
    wcwidth_wcwidth (sampleHost "C") startWorld [] =
        (Ret.null PyExc.TypeError, startWorld) ∧
      wcwidth_wcwidth (sampleHost "C") startWorld
          [PyObject.unicode [0x41], PyObject.unicode [0x42]] =
        (Ret.null PyExc.TypeError, startWorld) ∧
      wcwidth_wcwidth (sampleHost "C") startWorld [PyObject.long 65] =
        (Ret.null PyExc.TypeError, startWorld) ∧
      ((∃ v, (wcwidth_wcwidth (sampleHost "C") startWorld [PyObject.unicode [0x41]]).1 =
          Ret.obj (PyObject.long v)) ∧
        ∀ e, (wcwidth_wcwidth (sampleHost "C") startWorld [PyObject.unicode [0x41]]).1 ≠
          Ret.null e) :=
  ⟨(wcwidth_wcwidth_parse_error (sampleHost "C") startWorld []).2.1 (Or.inl (by decide)),
    (wcwidth_wcwidth_parse_error (sampleHost "C") startWorld
      [PyObject.unicode [0x41], PyObject.unicode [0x42]]).2.1 (Or.inl (by decide)),
    (wcwidth_wcwidth_parse_error (sampleHost "C") startWorld [PyObject.long 65]).2.1
      (Or.inr ⟨PyObject.long 65, rfl, fun s hs => by cases hs⟩),
    (wcwidth_wcwidth_parse_error (sampleHost "C") startWorld
      [PyObject.unicode [0x41]]).2.2 [0x41, 0] rfl⟩

/-- C10: the call never reads outside the parsed buffer.  Every buffer the
parser hands over has at least one unit and ends with the terminator `0`; the
buffer of the empty string is the terminator alone, and the call on the empty
string returns the library's width of the null unit. -/
theorem wcwidth_wcwidth_read_in_bounds (h : Host) (w : World) (args : List PyObject) :
    (wcwidth_wcwidth h w args).1 ≠ Ret.undefined ∧
      (∀ p, PyArg_ParseTuple_u h.wchar16 args = Except.ok p →
        0 < p.length ∧ p.getLast? = some 0) ∧
      PyArg_ParseTuple_u h.wchar16 [PyObject.unicode []] = Except.ok [0] ∧
      wcwidth_wcwidth h w [PyObject.unicode []] =
        (Ret.obj (PyLong_FromLong (h.wcwidth w.locale 0)),
          { w with trace := w.trace ++ [Event.wcwidth 0] }) := by
  refine ⟨?_, ?_, rfl, ?_⟩
  · cases hp : PyArg_ParseTuple_u h.wchar16 args with
    | error e =>
      simp only [wcwidth_wcwidth, hp]
      intro hne
      cases hne
    | ok p =>
      obtain ⟨c, hc⟩ := parse_ok_head h.wchar16 args p hp
      rw [wcwidth_wcwidth_of_parse h w args p c hp hc]
      intro hne
      cases hne
  · intro p hp
    obtain ⟨s, -, rfl, -⟩ := parse_ok_inv h.wchar16 args p hp
    simp
  · have hp : PyArg_ParseTuple_u h.wchar16 [PyObject.unicode []] = Except.ok [0] := rfl
    exact wcwidth_wcwidth_of_parse h w _ [0] 0 hp rfl

/-- C10 at the empty string and at `"中A"`. -/
theorem wcwidth_wcwidth_read_in_bounds_witness :
    wcwidth_wcwidth (sampleHost "en_US.UTF-8") ⟨"en_US.UTF-8", []⟩ [PyObject.unicode []] =
        (Ret.obj (PyObject.long 0), ⟨"en_US.UTF-8", [Event.wcwidth 0]⟩) ∧
      (wcwidth_wcwidth (sampleHost "en_US.UTF-8") ⟨"en_US.UTF-8", []⟩
          [PyObject.unicode [0x4E2D, 0x41]]).1 ≠ Ret.undefined ∧
      (0 < [0x4E2D, 0x41, 0].length ∧ [0x4E2D, 0x41, 0].getLast? = some 0) :=
  ⟨(wcwidth_wcwidth_read_in_bounds (sampleHost "en_US.UTF-8") ⟨"en_US.UTF-8", []⟩ []).2.2.2,
    (wcwidth_wcwidth_read_in_bounds (sampleHost "en_US.UTF-8") ⟨"en_US.UTF-8", []⟩
      [PyObject.unicode [0x4E2D, 0x41]]).1,
    (wcwidth_wcwidth_read_in_bounds (sampleHost "en_US.UTF-8") ⟨"en_US.UTF-8", []⟩
      [PyObject.unicode [0x4E2D, 0x41]]).2.1 [0x4E2D, 0x41, 0] rfl⟩

end PyGraphicsT
